import Mathlib

/-!
Verification development for the duffy tenant-administration slice.

The slice has two source files:
  * `duffy/app/controllers/tenant.py` — async HTTP controller operations
    (`get_all_tenants`, `get_tenant`, `create_tenant`, `delete_tenant`);
  * `duffy/admin.py` — the synchronous `AdminContext` facade used by the CLI,
    which proxies the same controller operations over its own session.

The relational store is modelled as an explicit state (`DB`): a list of
persisted `Tenant` rows plus the next auto-assigned primary key.  Each
controller operation becomes a pure function from a `DB` to a pair of the
post-state and an `Except`-value: `.ok` is the returned response dictionary,
`.error` is a raised Python exception.  Post-state on the `.error` side is the
original state — failures happen at or before commit, so nothing durable
changes (the session context/rollback semantics).

Parts of the repository that the two files import but that are not part of
this slice (`api_models`, the `Tenant` ORM model, `util.UNSET`, and the shared
controller operation `tenant.update_tenant` which `admin.py` calls) are
modelled from the specification; each such definition is marked in its
doc comment.
-/

/-- A persisted Tenant row.  Fields follow the spec data model (the ORM model
itself is not under the slice): store-assigned `id`, unique `name`,
`is_admin`, `api_key`, `ssh_key`, `active` (true unless retired), and the
nullable resource-governance attributes.  `timedelta` values are modelled as
integers (seconds). -/
structure Tenant where
  id : Nat
  name : String
  is_admin : Bool
  api_key : String
  ssh_key : String
  active : Bool
  node_quota : Option Nat
  session_lifetime : Option Int
  session_lifetime_max : Option Int
deriving DecidableEq, Repr

/-- The relational store: persisted tenant rows plus the next primary key the
store will assign.  A fresh store starts at `next_id = 1`. -/
structure DB where
  tenants : List Tenant
  next_id : Nat
deriving DecidableEq, Repr

/-- A raised Python exception reaching this slice's code: `fastapi.HTTPException`
(status code and detail), or a `TypeError` from binding keyword arguments of a
call. -/
inductive PyExc where
  | httpException (status_code : Nat) (detail : String)
  | typeError (msg : String)
deriving DecidableEq, Repr

/-- An exception raised by the store on constraint violation
(`sqlalchemy.exc.IntegrityError`); `msg` is its string rendering `str(exc)`. -/
structure IntegrityError where
  msg : String
deriving DecidableEq, Repr

/-- Modelled from the spec: the store's constraint-violation message for a
duplicate tenant name (the unique constraint on `Tenant.name`).  Its exact
text is store-specific; only the fact that it is surfaced verbatim matters. -/
def uniqueNameViolationMsg (name : String) : String :=
  "UNIQUE constraint failed: tenant.name (duplicate value " ++ name ++ ")"

/-- Committing an `INSERT` of row `t`: the store enforces the unique-`name`
invariant, raising `IntegrityError` and keeping the store unchanged on
violation; otherwise the row (with its assigned id) becomes durable and the
id counter advances. -/
def db_commit_insert (db : DB) (t : Tenant) : Except IntegrityError DB :=
  if db.tenants.any (fun u => u.name == t.name) then
    .error ⟨uniqueNameViolationMsg t.name⟩
  else
    .ok { tenants := db.tenants ++ [t], next_id := db.next_id + 1 }

/-- The response dictionary `{"action": ..., "tenant": ...}` returned by the
single-tenant controller operations. -/
structure TenantResult where
  action : String
  tenant : Tenant
deriving DecidableEq, Repr

/-- The response dictionary `{"action": ..., "tenants": [...]}` returned by the
collection controller operation. -/
structure TenantResultCollection where
  action : String
  tenants : List Tenant
deriving DecidableEq, Repr

/-- Modelled from the spec: `TenantCreateModel` (from `api_models`, not under
the slice) — the validated creation payload.  `admin.py` constructs it with
`name`, `ssh_key`, `is_admin`, `node_quota`, `session_lifetime`,
`session_lifetime_max`; `api_key` is generated/assigned at creation (spec §3)
when the caller does not supply one. -/
structure TenantCreateModel where
  name : String
  ssh_key : String
  is_admin : Bool
  api_key : String
  node_quota : Option Nat
  session_lifetime : Option Int
  session_lifetime_max : Option Int
deriving DecidableEq, Repr

/-- Modelled from the spec: the value the `api_key` generator assigns at
creation when the caller supplies none.  The generator itself is external to
the slice; no claim depends on the generated value, so it is a fixed
placeholder. -/
def generated_api_key : String := "generated-api-key"

/-- Modelled from the spec: the partial-update payload (`TenantUpdateModel`
from `api_models`, not under the slice).  Each field is tri-state: absent
(`none`), or present with a possibly-null value (`some v`).  `active` is the
field carried by `TenantRetireModel`. -/
structure TenantUpdateModel where
  api_key : Option (Option String)
  ssh_key : Option (Option String)
  node_quota : Option (Option Nat)
  session_lifetime : Option (Option Int)
  session_lifetime_max : Option (Option Int)
  active : Option Bool
deriving DecidableEq, Repr

/-- Modelled from the spec: `TenantRetireModel(active=b)` — a payload carrying
only the `active` field. -/
def TenantRetireModel (active : Bool) : TenantUpdateModel :=
  { api_key := none, ssh_key := none, node_quota := none,
    session_lifetime := none, session_lifetime_max := none, active := some active }

/-- `GET /tenants` (`get_all_tenants` in `controllers/tenant.py`): returns all
tenant rows with no filtering. -/
def tenant.get_all_tenants (db : DB) : DB × Except PyExc TenantResultCollection :=
  (db, .ok { action := "get", tenants := db.tenants })

/-- `GET /tenants/{id}` (`get_tenant` in `controllers/tenant.py`): select
one row by id (`scalar_one_or_none`), raise `HTTPException(404)` (FastAPI
default detail "Not Found") when there is none. -/
def tenant.get_tenant (db : DB) (id : Nat) : DB × Except PyExc TenantResult :=
  match db.tenants.find? (fun t => t.id == id) with
  | none => (db, .error (.httpException 404 "Not Found"))
  | some t => (db, .ok { action := "get", tenant := t })

/-- `POST /tenants` (`create_tenant` in `controllers/tenant.py`): build a row
from the payload copying exactly `name`, `is_admin`, `api_key`, `ssh_key`
(other columns stay at store defaults: `active` true, governance attributes
null), `session.add` it and `commit`; an `IntegrityError` raised by the
commit is translated to `HTTPException(409, str(exc))` and nothing is
persisted. -/
def tenant.create_tenant (db : DB) (data : TenantCreateModel) : DB × Except PyExc TenantResult :=
  let t : Tenant :=
    { id := db.next_id, name := data.name, is_admin := data.is_admin,
      api_key := data.api_key, ssh_key := data.ssh_key,
      active := true, node_quota := none, session_lifetime := none,
      session_lifetime_max := none }
  match db_commit_insert db t with
  | .error exc => (db, .error (.httpException 409 exc.msg))
  | .ok db2 => (db2, .ok { action := "post", tenant := t })

/-- `DELETE /tenants/{id}` (`delete_tenant` in `controllers/tenant.py`):
select the row by id, raise `HTTPException(404)` if absent, otherwise delete
it, commit, and return the row's values as they were prior to deletion. -/
def tenant.delete_tenant (db : DB) (id : Nat) : DB × Except PyExc TenantResult :=
  match db.tenants.find? (fun t => t.id == id) with
  | none => (db, .error (.httpException 404 "Not Found"))
  | some t =>
      ({ db with tenants := db.tenants.eraseP (fun u => u.id == id) },
        .ok { action := "delete", tenant := t })

/-- The synthetic always-admin caller `FakeAPITenant` from `admin.py`. -/
structure FakeAPITenant where
  is_admin : Bool
deriving DecidableEq, Repr

/-- The `AdminContext`'s single `FakeAPITenant` instance (`is_admin = True`). -/
def fake_api_tenant : FakeAPITenant := { is_admin := true }

/-- How a tenant row is changed by applying a partial-update payload: exactly
the present fields are written, absent fields keep the row's value.  On the
non-nullable columns (`api_key`, `ssh_key`) only a non-null present value is
applied. -/
def applyTenantUpdate (t : Tenant) (d : TenantUpdateModel) : Tenant :=
  { t with
    api_key := match d.api_key with | some (some v) => v | _ => t.api_key,
    ssh_key := match d.ssh_key with | some (some v) => v | _ => t.ssh_key,
    node_quota := match d.node_quota with | some v => v | none => t.node_quota,
    session_lifetime :=
      match d.session_lifetime with | some v => v | none => t.session_lifetime,
    session_lifetime_max :=
      match d.session_lifetime_max with | some v => v | none => t.session_lifetime_max,
    active := match d.active with | some b => b | none => t.active }

/-- Modelled from the spec: the shared controller operation
`tenant.update_tenant`, which `admin.py` delegates to but which is not under
the slice's `controllers/tenant.py`.  Spec §4.1: fails with NotFound if the
target id does not exist; otherwise applies only the fields present in `data`
(partial update) and commits.  Per spec §4.3/§9 the shared operations accept
the injected caller-context parameter (`tenant=` keyword); no authorization
logic is in scope, so the caller is unused. -/
def tenant.update_tenant (_caller : FakeAPITenant) (db : DB) (id : Nat)
    (data : TenantUpdateModel) : DB × Except PyExc TenantResult :=
  match db.tenants.find? (fun t => t.id == id) with
  | none => (db, .error (.httpException 404 "Not Found"))
  | some t =>
      ({ db with
          tenants := db.tenants.map
            (fun u => if u.id == id then applyTenantUpdate u data else u) },
        .ok { action := "put", tenant := applyTenantUpdate t data })

/-- Keyword binding of the proxied call
`controller_function(tenant=fake_api_tenant, db_async_session=..., **kwargs)`.
The four controller functions in `controllers/tenant.py` declare no `tenant`
parameter (and no `**kwargs`), so Python raises `TypeError` before the body
runs; `accepts_tenant_kwarg` records whether the called function has such a
parameter. -/
def bindControllerCall (accepts_tenant_kwarg : Bool) (fname : String)
    (body : DB → DB × Except PyExc ρ) : DB → DB × Except PyExc ρ :=
  fun db =>
    if accepts_tenant_kwarg then body db
    else (db, .error (.typeError (fname ++ "() got an unexpected keyword argument tenant")))

/-- The structured error value `{"error": {"detail": d}}` the admin context
returns in place of raised `HTTPException`s, or a normal result. -/
inductive AdminResult (ρ : Type) where
  | ok (r : ρ)
  | error (detail : String)
deriving DecidableEq, Repr

/-- `AdminContext.proxy_controller_function` /
`proxy_controller_function_async`: open a fresh session, run the controller
call in it; an `HTTPException` is caught, the session rolled back (post-state
is the pre-state) and the structured error `{"error": {"detail": exc.detail}}`
returned; any other exception is not caught and propagates (the overall
`Except` is `.error`).  The blocking variant runs the async variant to
completion on its own event loop, so both have the same input/output
behaviour. -/
def AdminContext.proxy_controller_function (db : DB) (run : DB → DB × Except PyExc ρ) :
    Except PyExc (DB × AdminResult ρ) :=
  match run db with
  | (db2, .ok r) => .ok (db2, .ok r)
  | (_, .error (.httpException _ detail)) => .ok (db, .error detail)
  | (_, .error e) => .error e

/-- `AdminContext.get_tenant_id`: a separately-scoped lookup translating a
tenant name to the store id (`scalar_one_or_none` on a `select` filtered by
name), `none` when no row matches. -/
def AdminContext.get_tenant_id (db : DB) (name : String) : Option Nat :=
  (db.tenants.find? (fun t => t.name == name)).map (fun t => t.id)

/-- `AdminContext.list_tenants`: proxy `tenant.get_all_tenants`. -/
def AdminContext.list_tenants (db : DB) :
    Except PyExc (DB × AdminResult TenantResultCollection) :=
  AdminContext.proxy_controller_function db
    (bindControllerCall false "get_all_tenants" tenant.get_all_tenants)

/-- `AdminContext.show_tenant`: resolve name → id, returning the structured
error `{"error": {"detail": "Tenant not found"}}` immediately when resolution
fails, else proxy `tenant.get_tenant` with the resolved id. -/
def AdminContext.show_tenant (db : DB) (name : String) :
    Except PyExc (DB × AdminResult TenantResult) :=
  match AdminContext.get_tenant_id db name with
  | none => .ok (db, .error "Tenant not found")
  | some tenant_id =>
      AdminContext.proxy_controller_function db
        (bindControllerCall false "get_tenant" (fun d => tenant.get_tenant d tenant_id))

/-- `AdminContext.create_tenant`: build a `TenantCreateModel` from the CLI
arguments (the `api_key` is generated by the payload model) and proxy
`tenant.create_tenant` with it. -/
def AdminContext.create_tenant (db : DB) (name : String) (ssh_key : String)
    (node_quota : Option Nat) (session_lifetime : Option Int)
    (session_lifetime_max : Option Int) (is_admin : Bool) :
    Except PyExc (DB × AdminResult TenantResult) :=
  let tenant_data : TenantCreateModel :=
    { name := name, ssh_key := ssh_key, is_admin := is_admin,
      api_key := generated_api_key, node_quota := node_quota,
      session_lifetime := session_lifetime,
      session_lifetime_max := session_lifetime_max }
  AdminContext.proxy_controller_function db
    (bindControllerCall false "create_tenant" (fun d => tenant.create_tenant d tenant_data))

/-- `AdminContext.retire_unretire_tenant`: resolve name → id (structured
"Tenant not found" error when resolution fails), build
`TenantRetireModel(active = not retire)` and proxy the shared
`tenant.update_tenant` with it. -/
def AdminContext.retire_unretire_tenant (db : DB) (name : String) (retire : Bool) :
    Except PyExc (DB × AdminResult TenantResult) :=
  match AdminContext.get_tenant_id db name with
  | none => .ok (db, .error "Tenant not found")
  | some tenant_id =>
      AdminContext.proxy_controller_function db
        (fun d => tenant.update_tenant fake_api_tenant d tenant_id (TenantRetireModel (!retire)))

/-- The tri-state type of `AdminContext.update_tenant`'s optional arguments
(Python `Optional[Union[α, SentinelType]]` with default `UNSET` from
`duffy.util`, the sentinel not under the slice): either the omit-sentinel
`UNSET`, or an explicitly passed possibly-null value. -/
inductive TriState (α : Type) where
  | UNSET : TriState α
  | passed : Option α → TriState α
deriving DecidableEq, Repr

/-- A Python value occurring in `AdminContext.update_tenant`'s `locals()`
dictionary: `None`, the `UNSET` sentinel, a string, an int, a timedelta, or
the `AdminContext` instance bound to `self`. -/
inductive PyVal where
  | pyNone : PyVal
  | pyUNSET : PyVal
  | pyStr : String → PyVal
  | pyInt : Int → PyVal
  | pyTimedelta : Int → PyVal
  | pyAdminContext : PyVal
deriving DecidableEq, Repr

/-- The Python value of a tri-state string argument. -/
def TriState.toPyStr : TriState String → PyVal
  | .UNSET => .pyUNSET
  | .passed none => .pyNone
  | .passed (some s) => .pyStr s

/-- The Python value of a tri-state int argument. -/
def TriState.toPyInt : TriState Nat → PyVal
  | .UNSET => .pyUNSET
  | .passed none => .pyNone
  | .passed (some n) => .pyInt n

/-- The Python value of a tri-state timedelta argument. -/
def TriState.toPyTimedelta : TriState Int → PyVal
  | .UNSET => .pyUNSET
  | .passed none => .pyNone
  | .passed (some n) => .pyTimedelta n

/-- The `locals()` dictionary of `AdminContext.update_tenant` at the point the
payload dict is built: `self`, the `name` positional argument, the five
tri-state keyword arguments, and the already-computed `tenant_id`. -/
def update_tenant_locals (name : String) (api_key ssh_key : TriState String)
    (node_quota : TriState Nat) (session_lifetime session_lifetime_max : TriState Int)
    (tenant_id : Nat) : List (String × PyVal) :=
  [("self", .pyAdminContext),
   ("name", .pyStr name),
   ("api_key", api_key.toPyStr),
   ("ssh_key", ssh_key.toPyStr),
   ("node_quota", node_quota.toPyInt),
   ("session_lifetime", session_lifetime.toPyTimedelta),
   ("session_lifetime_max", session_lifetime_max.toPyTimedelta),
   ("tenant_id", .pyInt tenant_id)]

/-- The dict comprehension in `AdminContext.update_tenant`:
`{key: value for key, value in locals().items() if key != "name" and value is not UNSET}`. -/
def update_tenant_data_dict (name : String) (api_key ssh_key : TriState String)
    (node_quota : TriState Nat) (session_lifetime session_lifetime_max : TriState Int)
    (tenant_id : Nat) : List (String × PyVal) :=
  (update_tenant_locals name api_key ssh_key node_quota session_lifetime
      session_lifetime_max tenant_id).filter
    (fun kv => kv.1 != "name" && kv.2 != PyVal.pyUNSET)

/-- Read one tri-state string field out of a keyword dict: absent key (or a
key bound to a non-string, which does not occur for the model's fields) gives
an absent field. -/
def kwStrField (d : List (String × PyVal)) (k : String) : Option (Option String) :=
  match d.lookup k with
  | some (.pyStr s) => some (some s)
  | some .pyNone => some none
  | _ => none

/-- Read one tri-state int field out of a keyword dict. -/
def kwIntField (d : List (String × PyVal)) (k : String) : Option (Option Nat) :=
  match d.lookup k with
  | some (.pyInt n) => some (some n.toNat)
  | some .pyNone => some none
  | _ => none

/-- Read one tri-state timedelta field out of a keyword dict. -/
def kwTimedeltaField (d : List (String × PyVal)) (k : String) : Option (Option Int) :=
  match d.lookup k with
  | some (.pyTimedelta n) => some (some n)
  | some .pyNone => some none
  | _ => none

/-- Modelled from the spec: construction `TenantUpdateModel(**data)` of the
partial-update payload from a keyword dict.  Only the model's declared
optional fields enter the payload ("only explicitly-passed fields enter the
partial-update payload", spec §4.3); keyword arguments that are not fields of
the model (`self`, `tenant_id`) do not become part of it, and the `active`
field has no corresponding keyword here. -/
def TenantUpdateModel.fromKwargs (d : List (String × PyVal)) : TenantUpdateModel :=
  { api_key := kwStrField d "api_key",
    ssh_key := kwStrField d "ssh_key",
    node_quota := kwIntField d "node_quota",
    session_lifetime := kwTimedeltaField d "session_lifetime",
    session_lifetime_max := kwTimedeltaField d "session_lifetime_max",
    active := none }

/-- `AdminContext.update_tenant`: resolve name → id (structured
"Tenant not found" error when resolution fails), filter the omit-sentinel
arguments out of `locals()`, build the `TenantUpdateModel` payload from the
remaining keywords and proxy the shared `tenant.update_tenant` with it. -/
def AdminContext.update_tenant (db : DB) (name : String)
    (api_key ssh_key : TriState String) (node_quota : TriState Nat)
    (session_lifetime session_lifetime_max : TriState Int) :
    Except PyExc (DB × AdminResult TenantResult) :=
  match AdminContext.get_tenant_id db name with
  | none => .ok (db, .error "Tenant not found")
  | some tenant_id =>
      let data := update_tenant_data_dict name api_key ssh_key node_quota
          session_lifetime session_lifetime_max tenant_id
      AdminContext.proxy_controller_function db
        (fun d => tenant.update_tenant fake_api_tenant d tenant_id (TenantUpdateModel.fromKwargs data))

/-- Metadata of one HTTP route declaration (decorator on a controller
function plus the router path). -/
structure RouteDecl where
  method : String
  path : String
  success_status : Nat
deriving DecidableEq, Repr

/-- Route declaration of the create endpoint:
`@router.post("", status_code=HTTP_201_CREATED)` on the router with path
"/tenants". -/
def tenant.create_route : RouteDecl :=
  { method := "post", path := "/tenants", success_status := 201 }

/-- The partial-update payload as the specification words it: exactly the
optional fields the caller explicitly passed (those not at the omit-sentinel),
each carrying the passed value, and nothing else. -/
def specExactUpdatePayload (api_key ssh_key : TriState String)
    (node_quota : TriState Nat)
    (session_lifetime session_lifetime_max : TriState Int) : TenantUpdateModel :=
  let pass {α : Type} : TriState α → Option (Option α)
    | .UNSET => none
    | .passed v => some v
  { api_key := pass api_key, ssh_key := pass ssh_key,
    node_quota := pass node_quota, session_lifetime := pass session_lifetime,
    session_lifetime_max := pass session_lifetime_max, active := none }

/-- A concrete tenant row used to witness the theorems on concrete stores. -/
def wAlice : Tenant :=
  { id := 1, name := "alice", is_admin := false, api_key := "key-a",
    ssh_key := "ssh-a", active := true, node_quota := none,
    session_lifetime := none, session_lifetime_max := none }

/-- A concrete store holding one tenant. -/
def wDB : DB := { tenants := [wAlice], next_id := 2 }

/-- A concrete creation payload for a new name. -/
def wData : TenantCreateModel :=
  { name := "bob", ssh_key := "ssh-b", is_admin := false, api_key := "key-b",
    node_quota := some 7, session_lifetime := some 60, session_lifetime_max := none }

/-- The row `tenant.create_tenant wDB wData` persists. -/
def wCreated : Tenant :=
  { id := 2, name := "bob", is_admin := false, api_key := "key-b",
    ssh_key := "ssh-b", active := true, node_quota := none,
    session_lifetime := none, session_lifetime_max := none }

/-- The store after creating `wData` in `wDB`. -/
def wDB2 : DB := { tenants := [wAlice, wCreated], next_id := 3 }

/-- A second creation payload reusing the name of `wData`. -/
def wDataDup : TenantCreateModel :=
  { name := "bob", ssh_key := "ssh-c", is_admin := true, api_key := "key-c",
    node_quota := none, session_lifetime := none, session_lifetime_max := none }

/-- A creation payload clashing with the name of `wAlice`. -/
def wDataAlice : TenantCreateModel :=
  { name := "alice", ssh_key := "ssh-d", is_admin := false, api_key := "key-d",
    node_quota := none, session_lifetime := none, session_lifetime_max := none }

/-- Elimination for a successful name-to-id resolution: some row was found by
name and its id is the resolved id. -/
theorem get_tenant_id_some_elim (db : DB) (name : String) (tid : Nat)
    (h : AdminContext.get_tenant_id db name = some tid) :
    ∃ tf, db.tenants.find? (fun u => u.name == name) = some tf ∧ tf.id = tid := by
  unfold AdminContext.get_tenant_id at h
  cases hfe : db.tenants.find? (fun u => u.name == name) with
  | none => rw [hfe] at h; simp at h
  | some tf => rw [hfe] at h; simp at h; exact ⟨tf, rfl, h⟩

/-- After a successful name-to-id resolution, the lookup by the resolved id
also finds a row. -/
theorem find?_id_of_get_tenant_id (db : DB) (name : String) (tid : Nat)
    (h : AdminContext.get_tenant_id db name = some tid) :
    ∃ t2, db.tenants.find? (fun u => u.id == tid) = some t2 := by
  obtain ⟨tf, hf, hid⟩ := get_tenant_id_some_elim db name tid h
  have hmem := List.mem_of_find?_eq_some hf
  have hsome : (db.tenants.find? (fun u => u.id == tid)).isSome := by
    rw [List.find?_isSome]
    exact ⟨tf, hmem, by simp [hid]⟩
  cases hfi : db.tenants.find? (fun u => u.id == tid) with
  | none => rw [hfi] at hsome; simp at hsome
  | some t2 => exact ⟨t2, rfl⟩

/-- Evaluation of the proxied shared update operation when the target id
exists: the row is updated in place and the pre-update row's updated values
are returned. -/
theorem proxy_update_eval (db : DB) (tid : Nat) (d : TenantUpdateModel) (t2 : Tenant)
    (hfi : db.tenants.find? (fun u => u.id == tid) = some t2) :
    AdminContext.proxy_controller_function db
        (fun s => tenant.update_tenant fake_api_tenant s tid d) =
      .ok ({ db with tenants := (db.tenants.map
              (fun u => if u.id == tid then applyTenantUpdate u d else u)) },
           AdminResult.ok { action := "put", tenant := applyTenantUpdate t2 d }) := by
  simp [AdminContext.proxy_controller_function, tenant.update_tenant, hfi]

/-- Applying a retire payload only writes the `active` field. -/
theorem applyTenantUpdate_retire (u : Tenant) (b : Bool) :
    applyTenantUpdate u (TenantRetireModel b) = { u with active := b } := rfl

/-- Mapping a name-preserving row transformation commutes with lookup by
name. -/
theorem find?_name_map_pres (f : Tenant → Tenant) (hf : ∀ u, (f u).name = u.name)
    (l : List Tenant) (name : String) :
    (l.map f).find? (fun t => t.name == name) =
      (l.find? (fun t => t.name == name)).map f := by
  rw [List.find?_map]
  have hpred : ((fun t : Tenant => t.name == name) ∘ f) = (fun t => t.name == name) := by
    funext u; simp [Function.comp, hf u]
  rw [hpred]

/-- Toggling `active` of the row with a given id does not change what
name-to-id resolution returns. -/
theorem get_tenant_id_setActive (db : DB) (name : String) (tid : Nat) (b : Bool)
    (h : AdminContext.get_tenant_id db name = some tid) :
    AdminContext.get_tenant_id
      { db with tenants := (db.tenants.map
          (fun u => if u.id == tid then { u with active := b } else u)) } name = some tid := by
  obtain ⟨tf, hf, hid⟩ := get_tenant_id_some_elim db name tid h
  unfold AdminContext.get_tenant_id
  rw [show ({ db with tenants := (db.tenants.map
          (fun u => if u.id == tid then { u with active := b } else u)) } : DB).tenants =
      db.tenants.map (fun u => if u.id == tid then { u with active := b } else u) from rfl]
  rw [find?_name_map_pres _ (fun u => by by_cases hc : (u.id == tid) = true <;> simp [hc]) _ name]
  rw [hf]
  have htf : (tf.id == tid) = true := by simp [hid]
  simp [htf, hid]

/-- Setting `active` of the row with a given id twice is the same as setting
it once. -/
theorem map_setActive_idem (l : List Tenant) (tid : Nat) (b : Bool) :
    (l.map (fun u => if u.id == tid then { u with active := b } else u)).map
        (fun u => if u.id == tid then { u with active := b } else u) =
      l.map (fun u => if u.id == tid then { u with active := b } else u) := by
  rw [List.map_map]
  apply List.map_congr_left
  intro u _
  by_cases hc : (u.id == tid) = true <;> simp [Function.comp, hc]

/-- Claim C1 (refuted, code bug): the claim says a call through the
admin-context proxy never propagates a raised exception to the caller.  On
the code it does: the proxy passes the keyword argument
`tenant=self.fake_api_tenant`, the controller functions in
`controllers/tenant.py` declare no `tenant` parameter, so the call raises
`TypeError` inside the `try` block, and only `HTTPException` is caught — the
`TypeError` propagates.  This theorem evaluates the code at a failing input:
`list_tenants` on an empty store propagates the uncaught `TypeError` instead
of returning data. -/
theorem admin_proxy_propagates_typeerror :
    AdminContext.list_tenants { tenants := [], next_id := 1 } =
      .error (.typeError "get_all_tenants() got an unexpected keyword argument tenant") := by
  rfl

/-- Claim C2: the partial-update payload built by
`AdminContext.update_tenant` contains exactly the optional fields the caller
explicitly passed — every field still at the omit-sentinel `UNSET` is
filtered out of the `locals()` dict before the payload object is
constructed, and nothing else (not `self`, `name` or `tenant_id`) becomes a
field of the payload.  Stated as: the constructed payload equals the
payload the specification words describe. -/
theorem update_payload_is_exactly_passed_fields (name : String)
    (api_key ssh_key : TriState String) (node_quota : TriState Nat)
    (session_lifetime session_lifetime_max : TriState Int) (tenant_id : Nat) :
    TenantUpdateModel.fromKwargs
        (update_tenant_data_dict name api_key ssh_key node_quota session_lifetime
          session_lifetime_max tenant_id) =
      specExactUpdatePayload api_key ssh_key node_quota session_lifetime
        session_lifetime_max := by
  rcases api_key with _ | (_ | a) <;> rcases ssh_key with _ | (_ | b) <;>
    rcases node_quota with _ | (_ | c) <;> rcases session_lifetime with _ | (_ | d) <;>
    rcases session_lifetime_max with _ | (_ | e) <;> rfl

/-- Claim C3: for a store in which name-to-id resolution finds the tenant,
`retire_unretire_tenant name retire` succeeds (nothing is raised), sets
`active` of that tenant's row to `not retire` (so `retire=True` retires,
`retire=False` unretires), and a repeated call in the same direction again
succeeds with the store unchanged; for a name that resolves to no id the
structured error `{error: {detail: "Tenant not found"}}` is returned, never
raised. -/
theorem retire_unretire_toggles_active (db dbm : DB) (name namem : String)
    (tid : Nat) (retire : Bool)
    (hfound : AdminContext.get_tenant_id db name = some tid)
    (hmiss : AdminContext.get_tenant_id dbm namem = none) :
    (∃ db2 r, AdminContext.retire_unretire_tenant db name retire = .ok (db2, .ok r) ∧
       (∀ u ∈ db2.tenants, u.id = tid → u.active = !retire) ∧
       (∃ r2, AdminContext.retire_unretire_tenant db2 name retire = .ok (db2, .ok r2))) ∧
    AdminContext.retire_unretire_tenant dbm namem retire =
      .ok (dbm, .error "Tenant not found") := by
  constructor
  · obtain ⟨t2, hfi⟩ := find?_id_of_get_tenant_id db name tid hfound
    have heval : AdminContext.retire_unretire_tenant db name retire =
        .ok ({ db with tenants := (db.tenants.map
                (fun u => if u.id == tid then { u with active := !retire } else u)) },
             AdminResult.ok { action := "put", tenant := { t2 with active := !retire } }) := by
      simp only [AdminContext.retire_unretire_tenant, hfound]
      rw [proxy_update_eval db tid _ t2 hfi]
      rfl
    refine ⟨_, _, heval, ?_, ?_⟩
    · intro u hu huid
      replace hu : u ∈ db.tenants.map
          (fun u => if u.id == tid then { u with active := !retire } else u) := hu
      obtain ⟨v, hv, rfl⟩ := List.mem_map.mp hu
      by_cases hc : (v.id == tid) = true
      · simp [hc]
      · exfalso
        have hv2 : v.id = tid := by simpa [hc] using huid
        exact hc (by simp [hv2])
    · have hfound2 := get_tenant_id_setActive db name tid (!retire) hfound
      obtain ⟨t3, hfi3⟩ := find?_id_of_get_tenant_id _ name tid hfound2
      have heval2 : AdminContext.retire_unretire_tenant
          { db with tenants := (db.tenants.map
              (fun u => if u.id == tid then { u with active := !retire } else u)) } name retire =
          .ok ({ db with tenants := ((db.tenants.map
                  (fun u => if u.id == tid then { u with active := !retire } else u)).map
                  (fun u => if u.id == tid then { u with active := !retire } else u)) },
               AdminResult.ok { action := "put", tenant := { t3 with active := !retire } }) := by
        simp only [AdminContext.retire_unretire_tenant, hfound2]
        rw [proxy_update_eval _ tid _ t3 hfi3]
        rfl
      rw [map_setActive_idem] at heval2
      exact ⟨_, heval2⟩
  · simp [AdminContext.retire_unretire_tenant, hmiss]

/-- Witness for C3 on a concrete store: "alice" exists (id 1), "bob" does
not. -/
theorem retire_unretire_toggles_active_witness :
    AdminContext.get_tenant_id wDB "alice" = some 1 ∧
    AdminContext.get_tenant_id wDB "bob" = none ∧
    ((∃ db2 r, AdminContext.retire_unretire_tenant wDB "alice" true =
        .ok (db2, AdminResult.ok r) ∧
       (∀ u ∈ db2.tenants, u.id = 1 → u.active = !true) ∧
       (∃ r2, AdminContext.retire_unretire_tenant db2 "alice" true =
          .ok (db2, AdminResult.ok r2))) ∧
     AdminContext.retire_unretire_tenant wDB "bob" true =
       .ok (wDB, AdminResult.error "Tenant not found")) :=
  ⟨by decide, by decide,
    retire_unretire_toggles_active wDB wDB "alice" "bob" 1 true (by decide) (by decide)⟩

/-- Claim C4: after a successful create, `get_tenant` at the assigned id
succeeds on the resulting store and returns a record whose `id`, `name` and
`ssh_key` equal those of the created tenant.  The hypothesis is the store
invariant that the id the store assigns next is not already in use. -/
theorem created_tenant_get_roundtrip (db db2 : DB) (data : TenantCreateModel)
    (r : TenantResult)
    (hfresh_id : ∀ u ∈ db.tenants, u.id ≠ db.next_id)
    (h : tenant.create_tenant db data = (db2, .ok r)) :
    ∃ r2, tenant.get_tenant db2 r.tenant.id = (db2, .ok r2) ∧
      r2.tenant.id = r.tenant.id ∧ r2.tenant.name = r.tenant.name ∧
      r2.tenant.ssh_key = r.tenant.ssh_key := by
  by_cases hdup : (db.tenants.any fun u => u.name == data.name) = true <;>
    simp only [tenant.create_tenant, db_commit_insert, hdup, if_true, if_false,
      Bool.false_eq_true, Prod.mk.injEq, reduceCtorEq, and_false, if_neg, ite_false,
      Except.error.injEq, Except.ok.injEq, ite_true] at h
  obtain ⟨hdb, hr⟩ := h
  subst hdb
  subst hr
  have hf1 : db.tenants.find? (fun u => u.id == db.next_id) = none := by
    rw [List.find?_eq_none]; intro x hx; simpa using hfresh_id x hx
  have hget : tenant.get_tenant
      { tenants := db.tenants ++
          [{ id := db.next_id, name := data.name, is_admin := data.is_admin,
             api_key := data.api_key, ssh_key := data.ssh_key, active := true,
             node_quota := none, session_lifetime := none,
             session_lifetime_max := none }], next_id := db.next_id + 1 } db.next_id =
      ({ tenants := db.tenants ++
          [{ id := db.next_id, name := data.name, is_admin := data.is_admin,
             api_key := data.api_key, ssh_key := data.ssh_key, active := true,
             node_quota := none, session_lifetime := none,
             session_lifetime_max := none }], next_id := db.next_id + 1 },
        .ok { action := "get",
              tenant := { id := db.next_id, name := data.name, is_admin := data.is_admin,
                          api_key := data.api_key, ssh_key := data.ssh_key, active := true,
                          node_quota := none, session_lifetime := none,
                          session_lifetime_max := none } }) := by
    simp [tenant.get_tenant, List.find?_append, hf1]
  exact ⟨_, hget, rfl, rfl, rfl⟩

/-- Witness for C4 on a concrete store: create "bob" then get id 2. -/
theorem created_tenant_get_roundtrip_witness :
    (∀ u ∈ wDB.tenants, u.id ≠ wDB.next_id) ∧
    tenant.create_tenant wDB wData = (wDB2, .ok { action := "post", tenant := wCreated }) ∧
    (∃ r2, tenant.get_tenant wDB2 wCreated.id = (wDB2, .ok r2) ∧
      r2.tenant.id = wCreated.id ∧ r2.tenant.name = wCreated.name ∧
      r2.tenant.ssh_key = wCreated.ssh_key) :=
  ⟨by decide, by rfl,
    created_tenant_get_roundtrip wDB wDB2 wData { action := "post", tenant := wCreated }
      (by decide) (by rfl)⟩

/-- Claim C5: with a fresh name the first create succeeds (the route's
success status is 201) and returns the persisted record with the assigned
id; a second create with the same name fails with HTTP 409 and the store's
constraint-violation message as the error detail, leaving the store
unchanged. -/
theorem duplicate_name_create_conflict (db : DB) (d1 d2 : TenantCreateModel)
    (hname : d2.name = d1.name)
    (hfresh : ∀ u ∈ db.tenants, u.name ≠ d1.name) :
    ∃ db2 r, tenant.create_tenant db d1 = (db2, .ok r) ∧
      r.action = "post" ∧ r.tenant.id = db.next_id ∧
      tenant.create_route.success_status = 201 ∧
      tenant.create_tenant db2 d2 =
        (db2, .error (.httpException 409 (uniqueNameViolationMsg d2.name))) := by
  have hdup1 : (db.tenants.any fun u => u.name == d1.name) = false := by
    simp only [List.any_eq_false]; intro u hu; simpa using hfresh u hu
  have h1 : tenant.create_tenant db d1 =
      ({ tenants := db.tenants ++
          [{ id := db.next_id, name := d1.name, is_admin := d1.is_admin,
             api_key := d1.api_key, ssh_key := d1.ssh_key, active := true,
             node_quota := none, session_lifetime := none,
             session_lifetime_max := none }], next_id := db.next_id + 1 },
        .ok { action := "post",
              tenant := { id := db.next_id, name := d1.name, is_admin := d1.is_admin,
                          api_key := d1.api_key, ssh_key := d1.ssh_key, active := true,
                          node_quota := none, session_lifetime := none,
                          session_lifetime_max := none } }) := by
    simp [tenant.create_tenant, db_commit_insert, hdup1]
  have hdup2 : ((db.tenants ++
      [{ id := db.next_id, name := d1.name, is_admin := d1.is_admin,
         api_key := d1.api_key, ssh_key := d1.ssh_key, active := true,
         node_quota := none, session_lifetime := none,
         session_lifetime_max := none : Tenant }]).any fun u => u.name == d2.name) = true := by
    simp [List.any_append, hname]
  refine ⟨_, _, h1, rfl, rfl, rfl, ?_⟩
  simp [tenant.create_tenant, db_commit_insert, hdup2]

/-- Witness for C5 on a concrete store: create "bob" twice. -/
theorem duplicate_name_create_conflict_witness :
    wDataDup.name = wData.name ∧ (∀ u ∈ wDB.tenants, u.name ≠ wData.name) ∧
    (∃ db2 r, tenant.create_tenant wDB wData = (db2, .ok r) ∧ r.action = "post" ∧
      r.tenant.id = wDB.next_id ∧ tenant.create_route.success_status = 201 ∧
      tenant.create_tenant db2 wDataDup =
        (db2, .error (.httpException 409 (uniqueNameViolationMsg wDataDup.name)))) :=
  ⟨by decide, by decide,
    duplicate_name_create_conflict wDB wData wDataDup (by decide) (by decide)⟩

/-- Claim C6: for an id no row carries, `get_tenant` and `delete_tenant`
fail with HTTP 404 (leaving the store unchanged), and on the admin path
`show_tenant` with an unknown name returns the structured error
`{error: {detail: "Tenant not found"}}` after name-to-id resolution yields
no id — nothing is raised. -/
theorem nonexistent_tenant_not_found (db : DB) (id0 : Nat) (name : String)
    (hid : ∀ u ∈ db.tenants, u.id ≠ id0)
    (hname : ∀ u ∈ db.tenants, u.name ≠ name) :
    tenant.get_tenant db id0 = (db, .error (.httpException 404 "Not Found")) ∧
    tenant.delete_tenant db id0 = (db, .error (.httpException 404 "Not Found")) ∧
    AdminContext.show_tenant db name = .ok (db, .error "Tenant not found") := by
  have hfid : db.tenants.find? (fun t => t.id == id0) = none := by
    rw [List.find?_eq_none]; intro x hx; simpa using hid x hx
  have hfname : db.tenants.find? (fun t => t.name == name) = none := by
    rw [List.find?_eq_none]; intro x hx; simpa using hname x hx
  refine ⟨?_, ?_, ?_⟩ <;>
    simp [tenant.get_tenant, tenant.delete_tenant, AdminContext.show_tenant,
      AdminContext.get_tenant_id, hfid, hfname]

/-- Witness for C6 on a concrete store: id 99 and name "carol" are absent. -/
theorem nonexistent_tenant_not_found_witness :
    (∀ u ∈ wDB.tenants, u.id ≠ 99) ∧ (∀ u ∈ wDB.tenants, u.name ≠ "carol") ∧
    (tenant.get_tenant wDB 99 = (wDB, .error (.httpException 404 "Not Found")) ∧
     tenant.delete_tenant wDB 99 = (wDB, .error (.httpException 404 "Not Found")) ∧
     AdminContext.show_tenant wDB "carol" = .ok (wDB, AdminResult.error "Tenant not found")) :=
  ⟨by decide, by decide, nonexistent_tenant_not_found wDB 99 "carol" (by decide) (by decide)⟩

/-- Claim C7: deleting an existing id removes that record from the store
(the commit makes the removal the returned durable state), no record with
that id remains (given the primary-key uniqueness invariant on ids), the
store shrinks by exactly one record, and the response carries
`action = "delete"` and the removed record's values as they were immediately
prior to deletion. -/
theorem delete_removes_and_returns_prior_values (db : DB) (id0 : Nat) (t : Tenant)
    (hnodup : (db.tenants.map Tenant.id).Nodup)
    (hfind : db.tenants.find? (fun u => u.id == id0) = some t) :
    ∃ db2, tenant.delete_tenant db id0 = (db2, .ok { action := "delete", tenant := t }) ∧
      t ∈ db.tenants ∧ (∀ u ∈ db2.tenants, u.id ≠ id0) ∧
      db2.tenants.length + 1 = db.tenants.length := by
  have hmem := List.mem_of_find?_eq_some hfind
  have hpt : (fun u => u.id == id0) t = true :=
    @List.find?_some Tenant (fun u => u.id == id0) t db.tenants hfind
  have hdel : tenant.delete_tenant db id0 =
      ({ db with tenants := db.tenants.eraseP (fun u => u.id == id0) },
        .ok { action := "delete", tenant := t }) := by
    simp [tenant.delete_tenant, hfind]
  refine ⟨_, hdel, hmem, ?_, ?_⟩
  · intro u hu huid
    obtain ⟨b, l1, l2, hl1, hpb, hl, he⟩ :=
      @List.exists_of_eraseP Tenant (fun u => u.id == id0) db.tenants t hmem hpt
    replace hu : u ∈ l1 ++ l2 := by rw [← he]; exact hu
    rcases List.mem_append.mp hu with hu1 | hu2
    · exact absurd (by simp [huid] : (u.id == id0) = true) (by simpa using hl1 u hu1)
    · have hbid : b.id = id0 := by simpa using hpb
      have hsplit : ((l1.map Tenant.id) ++ b.id :: (l2.map Tenant.id)).Nodup := by
        have hcopy := hnodup
        rw [hl] at hcopy
        simpa using hcopy
      have hnot : b.id ∉ l2.map Tenant.id := (List.nodup_cons.mp hsplit.of_append_right).1
      exact hnot (by rw [hbid, ← huid]; exact List.mem_map_of_mem Tenant.id hu2)
  · have hlen := @List.length_eraseP_of_mem Tenant db.tenants t (fun u => u.id == id0) hmem hpt
    have hpos : 0 < db.tenants.length :=
      List.length_pos.mpr (by intro hnil; rw [hnil] at hmem; simp at hmem)
    show (db.tenants.eraseP (fun u => u.id == id0)).length + 1 = db.tenants.length
    omega

/-- Witness for C7 on a concrete store: delete the tenant with id 1. -/
theorem delete_removes_and_returns_prior_values_witness :
    (wDB.tenants.map Tenant.id).Nodup ∧
    wDB.tenants.find? (fun u => u.id == 1) = some wAlice ∧
    (∃ db2, tenant.delete_tenant wDB 1 = (db2, .ok { action := "delete", tenant := wAlice }) ∧
      wAlice ∈ wDB.tenants ∧ (∀ u ∈ db2.tenants, u.id ≠ 1) ∧
      db2.tenants.length + 1 = wDB.tenants.length) :=
  ⟨by decide, by decide,
    delete_removes_and_returns_prior_values wDB 1 wAlice (by decide) (by decide)⟩

/-- Claim C8: when the tenant exists, an admin-context update supplying only
`node_quota` rewrites the store so that only that tenant's `node_quota`
field changes (every other field of every row is kept by the update
function, written as a record-update touching only `node_quota`); a call
supplying none of the optional fields succeeds and leaves the store exactly
as it was. -/
theorem update_only_node_quota_frame (db : DB) (name : String) (tid : Nat) (q : Option Nat)
    (hfound : AdminContext.get_tenant_id db name = some tid) :
    (∃ db2 r, AdminContext.update_tenant db name .UNSET .UNSET (.passed q) .UNSET .UNSET =
        .ok (db2, AdminResult.ok r) ∧
      db2.tenants = db.tenants.map
        (fun u => if u.id == tid then { u with node_quota := q } else u)) ∧
    (∃ r0, AdminContext.update_tenant db name .UNSET .UNSET .UNSET .UNSET .UNSET =
        .ok (db, AdminResult.ok r0)) := by
  obtain ⟨t2, hfi⟩ := find?_id_of_get_tenant_id db name tid hfound
  constructor
  · have heval : AdminContext.update_tenant db name .UNSET .UNSET (.passed q) .UNSET .UNSET =
        .ok ({ db with tenants := (db.tenants.map
                (fun u => if u.id == tid then { u with node_quota := q } else u)) },
             AdminResult.ok { action := "put", tenant := { t2 with node_quota := q } }) := by
      simp only [AdminContext.update_tenant, hfound]
      rw [proxy_update_eval db tid _ t2 hfi]
      cases q <;> rfl
    exact ⟨_, _, heval, rfl⟩
  · have heval0 : AdminContext.update_tenant db name .UNSET .UNSET .UNSET .UNSET .UNSET =
        .ok ({ db with tenants := (db.tenants.map
                (fun u => if u.id == tid then u else u)) },
             AdminResult.ok { action := "put", tenant := t2 }) := by
      simp only [AdminContext.update_tenant, hfound]
      rw [proxy_update_eval db tid _ t2 hfi]
      rfl
    have hmap : (db.tenants.map (fun u => if u.id == tid then u else u)) = db.tenants := by
      have hfun : (fun u : Tenant => if u.id == tid then u else u) = fun u => u := by
        funext u; exact ite_self u
      rw [hfun, List.map_id']
    rw [hmap] at heval0
    exact ⟨_, heval0⟩

/-- Witness for C8 on a concrete store: update "alice" with only
`node_quota=5`, and with nothing. -/
theorem update_only_node_quota_frame_witness :
    AdminContext.get_tenant_id wDB "alice" = some 1 ∧
    ((∃ db2 r, AdminContext.update_tenant wDB "alice" .UNSET .UNSET (.passed (some 5))
          .UNSET .UNSET = .ok (db2, AdminResult.ok r) ∧
       db2.tenants = wDB.tenants.map
         (fun u => if u.id == 1 then { u with node_quota := some 5 } else u)) ∧
     (∃ r0, AdminContext.update_tenant wDB "alice" .UNSET .UNSET .UNSET .UNSET .UNSET =
        .ok (wDB, AdminResult.ok r0))) :=
  ⟨by decide, update_only_node_quota_frame wDB "alice" 1 (some 5) (by decide)⟩

/-- Claim C9: the shared create operation copies exactly `name`, `is_admin`,
`api_key` and `ssh_key` from the creation payload into the persisted record;
whatever `node_quota`, `session_lifetime`, `session_lifetime_max` the
admin-context caller supplied in the payload never reach the record, which
keeps the store defaults (null governance attributes, `active` true). -/
theorem create_copies_only_declared_fields (db db2 : DB) (data : TenantCreateModel)
    (r : TenantResult) (h : tenant.create_tenant db data = (db2, .ok r)) :
    r.tenant.node_quota = none ∧ r.tenant.session_lifetime = none ∧
    r.tenant.session_lifetime_max = none ∧ r.tenant.active = true ∧
    r.tenant.name = data.name ∧ r.tenant.is_admin = data.is_admin ∧
    r.tenant.api_key = data.api_key ∧ r.tenant.ssh_key = data.ssh_key ∧
    db2.tenants = db.tenants ++ [r.tenant] := by
  by_cases hdup : (db.tenants.any fun u => u.name == data.name) = true <;>
    simp only [tenant.create_tenant, db_commit_insert, hdup, if_true, if_false,
      Bool.false_eq_true, Prod.mk.injEq, reduceCtorEq, and_false, if_neg, ite_false,
      Except.error.injEq, Except.ok.injEq, ite_true] at h
  obtain ⟨hdb, hr⟩ := h
  subst hdb
  rw [← hr]
  simp

/-- Witness for C9 on a concrete store: the payload `wData` carries
`node_quota = some 7` and `session_lifetime = some 60`, yet the persisted
record has both at their store defaults. -/
theorem create_copies_only_declared_fields_witness :
    tenant.create_tenant wDB wData = (wDB2, .ok { action := "post", tenant := wCreated }) ∧
    (wCreated.node_quota = none ∧ wCreated.session_lifetime = none ∧
     wCreated.session_lifetime_max = none ∧ wCreated.active = true ∧
     wCreated.name = wData.name ∧ wCreated.is_admin = wData.is_admin ∧
     wCreated.api_key = wData.api_key ∧ wCreated.ssh_key = wData.ssh_key ∧
     wDB2.tenants = wDB.tenants ++ [wCreated]) :=
  ⟨by rfl,
    create_copies_only_declared_fields wDB wDB2 wData
      { action := "post", tenant := wCreated } (by rfl)⟩

/-- Claim C10: whenever create fails, it fails with the 409 conflict raised
by the commit itself and the stored set of tenants is unchanged — the
conflicting record is not persisted. -/
theorem create_conflict_is_atomic (db db2 : DB) (data : TenantCreateModel) (e : PyExc)
    (h : tenant.create_tenant db data = (db2, .error e)) :
    db2 = db ∧ ∃ msg, e = .httpException 409 msg := by
  by_cases hdup : (db.tenants.any fun u => u.name == data.name) = true <;>
    simp only [tenant.create_tenant, db_commit_insert, hdup, if_true, if_false,
      Bool.false_eq_true, Prod.mk.injEq, reduceCtorEq, and_false, if_neg, ite_false,
      Except.error.injEq, Except.ok.injEq, ite_true] at h
  exact ⟨h.1.symm, _, h.2.symm⟩

/-- Witness for C10 on a concrete store: creating a second "alice" fails and
leaves the store as it was. -/
theorem create_conflict_is_atomic_witness :
    tenant.create_tenant wDB wDataAlice =
      (wDB, .error (.httpException 409 (uniqueNameViolationMsg "alice"))) ∧
    (wDB = wDB ∧ ∃ msg, (PyExc.httpException 409 (uniqueNameViolationMsg "alice")) =
      .httpException 409 msg) :=
  ⟨by rfl,
    create_conflict_is_atomic wDB wDB wDataAlice
      (.httpException 409 (uniqueNameViolationMsg "alice")) (by rfl)⟩
